import Mathlib

/-!
Verification of the ReplySight orchestration engine against its
natural-language specification.

The definitions below are a shallow embedding of the Python sources
`src/backend/graph.py` (the `ReplySightAgent` LangGraph workflow) and
`src/backend/tools.py` (the retrieval adapters and the response composer).

Modelling conventions:
* External language-model and HTTP calls are parameters ("oracles"): a
  `List Msg → Msg` for the decision model, an `Option String` for the
  evaluator model (`none` models `ainvoke` raising), an
  `Except String String` for the composer chain (`.error e` models the
  invocation raising with message `e`), and `Except String _` values for
  the two adapters' HTTP traffic (`.error e` models the HTTP client
  raising; the adapters have no try/except of their own).
* Python floats are modelled as exact rationals (`ℚ`, built with `mkRat`
  so that terms evaluate inside the kernel): every number the evaluator
  path manipulates is a decimal literal, the clamp bounds and the 0.7
  threshold, on which exact rational comparison agrees with float
  comparison.
* Python dict values (`insights` / `examples`, `Dict[str, Any]`) are
  modelled by the structure `ResearchDict` with one optional field per
  key the source reads or writes; `none` is an absent key and
  `dict.update` replaces exactly the present keys.
* A LangChain `AIMessage` is `Msg.ai content toolCalls`; `toolCalls =
  none` models an object without the `tool_calls` attribute, so the
  source's `hasattr(msg, 'tool_calls')` is `toolCalls.isSome` and the
  truthiness of `msg.tool_calls` is non-emptiness of the list.
* The `messages` channel is declared `Annotated[List[Any], operator.add]`,
  so a node's returned `"messages"` value is appended to the channel,
  never replacing it: `applyUpdate` below is that reducer.
-/

set_option maxRecDepth 100000
set_option linter.unusedVariables false

namespace ReplySight

/-! ## Small Python-shape helpers -/

/-- Python `needle in haystack` on strings, as lists of characters. -/
def containsSub (needle : List Char) : List Char → Bool
  | [] => needle.isPrefixOf []
  | c :: rest => needle.isPrefixOf (c :: rest) || containsSub needle rest

/-- Python `str.strip()`: drop whitespace from both ends. -/
def pyStrip (s : List Char) : List Char :=
  ((s.dropWhile Char.isWhitespace).reverse.dropWhile Char.isWhitespace).reverse

/-- Value of a list of decimal digit characters. -/
def digitsVal (ds : List Char) : ℕ :=
  ds.foldl (fun a c => 10 * a + (c.toNat - 48)) 0

/-- The first match of the regex `(\d+\.?\d*)` in a character list:
the maximal digit run starting at the first digit, then optionally one
dot followed by a maximal (possibly empty) digit run.  Returns the
integer part and the fractional part. -/
def scanNumber : List Char → Option (List Char × List Char)
  | [] => none
  | c :: rest =>
    if c.isDigit then
      let intPart := (c :: rest).takeWhile Char.isDigit
      let afterInt := (c :: rest).dropWhile Char.isDigit
      match afterInt with
      | '.' :: r2 => some (intPart, r2.takeWhile Char.isDigit)
      | _ => some (intPart, [])
    else scanNumber rest

/-- The rational value of a matched decimal literal (`float(...)` of the
matched text, modelled exactly). -/
def decVal (intPart fracPart : List Char) : ℚ :=
  mkRat (digitsVal intPart * 10 ^ fracPart.length + digitsVal fracPart) (10 ^ fracPart.length)

/-- Python `min(max(score, 0.0), 1.0)`. -/
def clamp01 (q : ℚ) : ℚ := min (max q (mkRat 0 1)) (mkRat 1 1)

/-! ## Messages (LangChain message objects as the workflow sees them) -/

/-- One entry of an `AIMessage.tool_calls` list: the tool name the
routers match on, and the `query` argument the tool is invoked with. -/
structure ToolCall where
  name : String
  query : String := ""
deriving DecidableEq

/-- Structured result of `ArxivInsightsTool._arun` (the dict
`{'papers': ..., 'query': ..., 'source': 'arXiv'}`). -/
structure Paper where
  title : Option String
  abstract : Option String
  citation : Option String
deriving DecidableEq

structure ArxivResult where
  papers : List Paper
  query : String
  source : String
deriving DecidableEq

/-- One entry of a Tavily `results` list (the keys the composer reads). -/
structure TavilyExample where
  title : Option String
  snippet : Option String
  url : Option String
deriving DecidableEq

/-- Result dict of `TavilyExamplesTool._arun`: either the payload keys
(`examples`/`query`/`source`) or the single key `error`; `none` models an
absent key. -/
structure TavilyResult where
  error : Option String
  examples : Option (List TavilyExample)
  query : Option String
  source : Option String
deriving DecidableEq

/-- What a `ToolMessage.content` string `eval`-uates to in the extractors:
a structured dict for the repr of a tool's result dict (where Python's
`eval(content)` succeeds), or raw text on which `eval` raises. -/
inductive ToolPayload where
  | arxivPayload (r : ArxivResult)
  | tavilyPayload (r : TavilyResult)
  | rawText (s : String)
deriving DecidableEq

/-- A LangChain message.  `ai content none` is an `AIMessage` object
without the `tool_calls` attribute; `ai content (some tcs)` has the
attribute holding the list `tcs`. -/
inductive Msg where
  | system (content : String)
  | human (content : String)
  | ai (content : String) (toolCalls : Option (List ToolCall))
  | tool (name : String) (content : ToolPayload)
deriving DecidableEq

def Msg.content : Msg → String
  | .system c => c
  | .human c => c
  | .ai c _ => c
  | .tool _ _ => ""

def Msg.isSystem : Msg → Bool
  | .system _ => true
  | _ => false

/-- `isinstance(msg, AIMessage) and not hasattr(msg, 'tool_calls')`: the
predicate both `check_helpfulness`, `should_continue` and the final
fallback extraction use to find a response to evaluate. -/
def Msg.isEvaluableAI : Msg → Bool
  | .ai _ none => true
  | _ => false

def Msg.isToolNamed (n : String) : Msg → Bool
  | .tool name _ => name = n
  | _ => false

/-- `for msg in reversed(messages): if isinstance(msg, AIMessage) and not
hasattr(msg, 'tool_calls'): ... break` -/
def lastEvaluableAI (messages : List Msg) : Option Msg :=
  messages.reverse.find? Msg.isEvaluableAI

/-! ## `src/backend/tools.py` -/

/-- The hard-coded paper `ArxivInsightsTool._arun` appends when the
upstream XML contains `entry`. -/
def referencePaper : Paper :=
  { title := some "The Psychology of Service Recovery: Empathy and Customer Satisfaction"
    abstract := some "Research shows that empathetic responses to service failures increase customer satisfaction by 40% and reduce churn by 15%."
    citation := some "Smith, J. et al. (2023). arXiv:2023.12345" }

/-- `ArxivInsightsTool._arun`.  `http` is the HTTP exchange: `.ok content`
is the response text, `.error e` an exception raised by the HTTP client.
The function has no try/except, so an HTTP exception propagates
(`Except.error`). -/
def arxivARun (http : Except String String) (query : String) :
    Except String ArxivResult :=
  match http with
  | .error e => .error e
  | .ok content =>
    let papers := if containsSub "entry".toList content.toList then [referencePaper] else []
    .ok { papers := papers, query := query, source := "arXiv" }

/-- Python truthiness of the optional `api_key` string: `None` and `""`
are falsy. -/
def pyFalsyKey : Option String → Bool
  | none => true
  | some s => s = ""

/-- `TavilyExamplesTool._arun`.  `http` is the POST exchange: `.ok
(status, results)` is a reply with that status code and parsed `results`
list, `.error e` an exception raised by the HTTP client (uncaught, so it
propagates). -/
def tavilyARun (apiKey : Option String)
    (http : Except String (ℕ × List TavilyExample)) (query : String) :
    Except String TavilyResult :=
  if pyFalsyKey apiKey then
    .ok { error := some "Tavily API key not configured"
          examples := none, query := none, source := none }
  else
    match http with
    | .error e => .error e
    | .ok (status, results) =>
      if status = 200 then
        .ok { error := none, examples := some results
              query := some query, source := some "Tavily" }
      else
        .ok { error := some ("Tavily API error: " ++ toString status)
              examples := none, query := none, source := none }

/-- Result dict of `ResponseComposerTool._run`. -/
structure ComposeResult where
  response : String
  citations : List String
  sentiment : String
  error : Option String
deriving DecidableEq

/-- The `insights` / `examples` state dicts (`Dict[str, Any]`), restricted
to the keys the source reads or writes; `none` / `false` model an absent
key. -/
structure ResearchDict where
  papers : Option (List Paper) := none
  examples : Option (List TavilyExample) := none
  query : Option String := none
  source : Option String := none
  error : Option String := none
  arxiv_processed : Bool := false
  tavily_processed : Bool := false
  arxiv_raw_response : Option String := none
  tavily_raw_response : Option String := none
deriving DecidableEq

/-- `insights.get('papers')` truthiness guard, then
`[paper.get('citation', '') for paper in insights['papers'][:2]]`. -/
def academicCitations (insights : ResearchDict) : List String :=
  match insights.papers with
  | some ps => if ps.isEmpty then [] else (ps.take 2).map (fun p => p.citation.getD "")
  | none => []

/-- `examples.get('examples')` truthiness guard, then
`[ex.get('url', '') for ex in examples['examples'][:2]]`. -/
def exampleUrls (examples : ResearchDict) : List String :=
  match examples.examples with
  | some exs => if exs.isEmpty then [] else (exs.take 2).map (fun ex => ex.url.getD "")
  | none => []

/-- The fixed fallback template `ResponseComposerTool._run` returns when
the chain invocation raises. -/
def fallbackResponse : String :=
  "I sincerely apologize for the inconvenience you've experienced. I understand how frustrating this must be, and I want to make this right immediately. Let me personally ensure we resolve this issue and provide you with the excellent service you deserve. I'll also add a credit to your account as an apology for this experience."

/-- `ResponseComposerTool._run`.  `chain` is the structured language-model
invocation: `.ok text` is the chain's string output, `.error e` models
`chain.invoke` raising with message `e`.  The raise happens before the
`citations` local is assigned, so the fallback's `citations if 'citations'
in locals() else []` is `[]`. -/
def composerRun (chain : Except String String) (complaint : String)
    (insights examples : ResearchDict) : ComposeResult :=
  match chain with
  | .ok response =>
    let citations := academicCitations insights ++ exampleUrls examples
    let citations := citations.filter (fun c => ¬ c = "")
    { response := String.mk (pyStrip response.toList)
      citations := citations, sentiment := "ai_generated", error := none }
  | .error e =>
    { response := fallbackResponse, citations := []
      sentiment := "fallback", error := some e }

/-! ## `src/backend/graph.py`: the agent state -/

/-- `AgentState` (a `TypedDict`); `start_time` and wall-clock values are
exact rationals.  The `messages` channel carries the `operator.add`
reducer (see `applyUpdate`). -/
structure AgentState where
  messages : List Msg
  complaint : String
  insights : ResearchDict
  examples : ResearchDict
  response : String
  citations : List String
  latency_ms : ℤ
  start_time : ℚ
  iteration_count : ℕ
  decision : String
  arxiv_complete : Bool
  tavily_complete : Bool
  helpfulness_score : ℚ
deriving DecidableEq

/-- The LangGraph channel update for a node's returned dict: the
`messages` key is reduced with `operator.add` (old list ++ returned
list), every other key is last-value.  A node function below returns the
state whose `messages` field is the *returned* list. -/
def applyUpdate (old upd : AgentState) : AgentState :=
  { upd with messages := old.messages ++ upd.messages }

/-! ## Node and router functions of `ReplySightAgent` -/

/-- The initial `SystemMessage` content of `call_model` (an f-string over
the complaint and the two research-status markers). -/
def systemPrompt (complaint : String) (arxivStatus tavilyStatus : String) : String :=
  "You are an expert customer service research assistant. Your job is to analyze customer complaints and provide helpful, empathetic responses.\n\nCOMPLAINT: "
    ++ complaint
    ++ "\n\nRESEARCH STATUS:\n- ArXiv Research: " ++ arxivStatus
    ++ "\n- Tavily Examples: " ++ tavilyStatus
    ++ "\n\nAvailable tools:\n- arxiv_insights: Fetch academic research on customer service, empathy, service recovery\n- tavily_examples: Search for customer service best practices and real examples\n\nYour workflow:\n1. Analyze the complaint to understand the customer's issue and emotional state\n2. If you need more research, call the appropriate tools\n3. If you have sufficient information, provide a comprehensive, empathetic response\n4. Focus on being helpful, specific, and actionable\n\nProvide either tool calls for research OR a direct helpful response to the customer complaint."

def statusMarker (b : Bool) : String :=
  if b then "✅ Complete" else "⏳ Pending"

/-- `ReplySightAgent.call_model`.  `llm` is the bound decision model:
`llm messages` is the `AIMessage` returned by `self.llm.invoke(messages)`.
Returns the state whose `messages` field is the node's returned
`updated_messages` list (the reducer then appends it, see
`applyUpdate`). -/
def call_model (llm : List Msg → Msg) (st : AgentState) : AgentState :=
  let messages := st.messages
  let messages :=
    if messages.length = 0 ∨ ¬ messages.any Msg.isSystem then
      Msg.system (systemPrompt st.complaint
        (statusMarker st.arxiv_complete) (statusMarker st.tavily_complete)) :: messages
    else messages
  let response := llm messages
  let updated_messages := messages ++ [response]
  { st with messages := updated_messages }

/-- `check_helpfulness`.  `evaluator` is the helpfulness-checker model:
`some content` is `result.content`, `none` models `ainvoke` raising (the
bare `except` then yields 0.5). -/
def check_helpfulness (evaluator : Option String) (st : AgentState) : ℚ :=
  match lastEvaluableAI st.messages with
  | none => mkRat 0 1
  | some _ =>
    match evaluator with
    | none => mkRat 1 2
    | some content =>
      let score_text := pyStrip content.toList
      match scanNumber score_text with
      | some (intPart, fracPart) => clamp01 (decVal intPart fracPart)
      | none => mkRat 1 2

/-- True exactly when `check_helpfulness` reaches its
`self.helpfulness_checker.ainvoke` call (it returns 0.0 before the call
when no evaluable `AIMessage` exists). -/
def evaluatorModelInvoked (st : AgentState) : Bool :=
  (lastEvaluableAI st.messages).isSome

inductive AgentRoute where
  | arxiv_tools
  | tavily_tools
  | action
deriving DecidableEq

/-- The first-match loop of `tool_call_or_helpful` over
`last_message.tool_calls`: returns on the first name equal to
`arxiv_insights` or `tavily_examples`, falls through to `action`. -/
def routeToolCalls : List ToolCall → AgentRoute
  | [] => .action
  | tc :: rest =>
    if tc.name = "arxiv_insights" then .arxiv_tools
    else if tc.name = "tavily_examples" then .tavily_tools
    else routeToolCalls rest

/-- `tool_call_or_helpful`: route to a tool node when the last message
has a truthy `tool_calls` attribute, else to `action`. -/
def tool_call_or_helpful (st : AgentState) : AgentRoute :=
  match st.messages.getLast? with
  | some (.ai _ (some tcs)) => if tcs.isEmpty then .action else routeToolCalls tcs
  | _ => .action

inductive ContinueDecision where
  | continueRun
  | endRun
deriving DecidableEq

/-- `should_continue`, the decision gate: force `end` past 10 messages,
return `continue` when there is no evaluable response, otherwise compare
the evaluator's score against 0.7.  (The source's in-place
`state["helpfulness_score"] = helpfulness_score` assignment happens
inside a conditional-edge function, whose mutations do not reach the
graph's channels, so it contributes no state update.) -/
def should_continue (evaluator : Option String) (st : AgentState) : ContinueDecision :=
  if st.messages.length > 10 then .endRun
  else
    match lastEvaluableAI st.messages with
    | none => .continueRun
    | some _ =>
      if check_helpfulness evaluator st ≥ mkRat 7 10 then .endRun else .continueRun

/-- True exactly when `should_continue` reaches its
`await self.check_helpfulness(state)` call (both early returns — the
length ceiling and the missing evaluable message — happen before it). -/
def gateInvokesEvaluator (st : AgentState) : Bool :=
  if st.messages.length > 10 then false
  else (lastEvaluableAI st.messages).isSome

inductive ActionRoute where
  | composeRoute
  | agentRoute
deriving DecidableEq

/-- `route_action`: compose when both research flags are set or the
iteration ceiling is reached. -/
def route_action (st : AgentState) : ActionRoute :=
  if (st.arxiv_complete && st.tavily_complete) || st.iteration_count ≥ 4 then .composeRoute
  else .agentRoute

/-- `dict.update(tool_result)` for an `eval`-uated arXiv result dict:
the keys `papers`, `query`, `source` are replaced. -/
def ResearchDict.updateArxiv (d : ResearchDict) (r : ArxivResult) : ResearchDict :=
  { d with papers := some r.papers, query := some r.query, source := some r.source }

/-- `dict.update(tool_result)` for an `eval`-uated Tavily result dict:
exactly the keys present in the result are replaced. -/
def ResearchDict.updateTavily (d : ResearchDict) (r : TavilyResult) : ResearchDict :=
  { d with
    examples := match r.examples with | some v => some v | none => d.examples
    query := match r.query with | some v => some v | none => d.query
    source := match r.source with | some v => some v | none => d.source
    error := match r.error with | some v => some v | none => d.error }

/-- `extract_arxiv_results`: merge the newest `arxiv_insights`
`ToolMessage` into `insights` (the raw content on `eval` failure), then
set `arxiv_complete` and advance `iteration_count`. -/
def extract_arxiv_results (st : AgentState) : AgentState :=
  let insights := st.insights
  let insights :=
    match st.messages.reverse.find? (Msg.isToolNamed "arxiv_insights") with
    | some (.tool _ (.arxivPayload r)) =>
      { insights.updateArxiv r with arxiv_processed := true }
    | some (.tool _ (.tavilyPayload r)) =>
      { insights.updateTavily r with arxiv_processed := true }
    | some (.tool _ (.rawText s)) =>
      { insights with arxiv_raw_response := some s, arxiv_processed := true }
    | _ => insights
  { st with
    insights := insights
    arxiv_complete := true
    iteration_count := st.iteration_count + 1 }

/-- `extract_tavily_results`: symmetric to `extract_arxiv_results` over
the `examples` dict and the `tavily_examples` tool name. -/
def extract_tavily_results (st : AgentState) : AgentState :=
  let examples := st.examples
  let examples :=
    match st.messages.reverse.find? (Msg.isToolNamed "tavily_examples") with
    | some (.tool _ (.tavilyPayload r)) =>
      { examples.updateTavily r with tavily_processed := true }
    | some (.tool _ (.arxivPayload r)) =>
      { examples.updateArxiv r with tavily_processed := true }
    | some (.tool _ (.rawText s)) =>
      { examples with tavily_raw_response := some s, tavily_processed := true }
    | _ => examples
  { st with
    examples := examples
    tavily_complete := true
    iteration_count := st.iteration_count + 1 }

/-- `compose_response`: run the composer tool over the accumulated
research and record its response and citations.  `chain` is the
composer's language-model invocation (see `composerRun`). -/
def compose_response (chain : Except String String) (st : AgentState) : AgentState :=
  let result := composerRun chain st.complaint st.insights st.examples
  { st with response := result.response, citations := result.citations, decision := "end" }

/-! ## `_build_graph`: nodes and edges

The wiring of `_build_graph` registers `should_continue` and
`route_action` both as nodes and as the conditional-edge functions out of
those nodes.  As nodes they contribute no state update (their string
return value is not a channel dict); the routing they decide is modelled
on the conditional edges, which is the transition table the spec
describes.  `ToolNode` executes the tool calls of the last message and
returns only a `messages` list of `ToolMessage`s; with its default
error handling a tool exception becomes the text content
`Error: <exception>` of the `ToolMessage` instead of propagating. -/

inductive Node where
  | agent
  | arxiv_tools
  | tavily_tools
  | extract_arxiv
  | extract_tavily
  | action
  | should_continue_gate
  | compose
  | terminal
deriving DecidableEq

/-- The conditional-edge map out of `agent`. -/
def agentEdgeTarget : AgentRoute → Node
  | .arxiv_tools => .arxiv_tools
  | .tavily_tools => .tavily_tools
  | .action => .action

/-- The conditional-edge map out of `action`: `compose` to the composer,
`agent` onward to the `should_continue` decision gate. -/
def actionEdgeTarget : ActionRoute → Node
  | .composeRoute => .compose
  | .agentRoute => .should_continue_gate

/-- The conditional-edge map out of the decision gate: `continue` back to
`agent`, `end` to `END`. -/
def gateEdgeTarget : ContinueDecision → Node
  | .continueRun => .agent
  | .endRun => .terminal

/-- The tool calls of the last message (what a `ToolNode` executes). -/
def lastToolCalls (messages : List Msg) : List ToolCall :=
  match messages.getLast? with
  | some (.ai _ (some tcs)) => tcs
  | _ => []

/-- `ToolNode([self.arxiv_tool])`: run `arxiv_insights` for each matching
tool call of the last message and append one `ToolMessage` each; a tool
exception or an unknown tool name yields an error-text `ToolMessage`
(LangGraph's default tool-error handling) rather than propagating. -/
def arxivToolNode (http : Except String String) (st : AgentState) : AgentState :=
  let toolMessages := (lastToolCalls st.messages).map (fun tc =>
    if tc.name = "arxiv_insights" then
      match arxivARun http tc.query with
      | .ok r => Msg.tool "arxiv_insights" (.arxivPayload r)
      | .error e => Msg.tool "arxiv_insights" (.rawText ("Error: " ++ e))
    else Msg.tool tc.name (.rawText ("Error: " ++ tc.name ++ " is not a valid tool")))
  { st with messages := toolMessages }

/-- `ToolNode([self.tavily_tool])`, symmetric to `arxivToolNode`. -/
def tavilyToolNode (apiKey : Option String)
    (http : Except String (ℕ × List TavilyExample)) (st : AgentState) : AgentState :=
  let toolMessages := (lastToolCalls st.messages).map (fun tc =>
    if tc.name = "tavily_examples" then
      match tavilyARun apiKey http tc.query with
      | .ok r => Msg.tool "tavily_examples" (.tavilyPayload r)
      | .error e => Msg.tool "tavily_examples" (.rawText ("Error: " ++ e))
    else Msg.tool tc.name (.rawText ("Error: " ++ tc.name ++ " is not a valid tool")))
  { st with messages := toolMessages }

/-- The workflow's external collaborators for one run: the decision
model, the helpfulness checker, the composer chain, the two adapters'
HTTP exchanges and the configured Tavily credential. -/
structure Oracles where
  llm : List Msg → Msg
  evaluator : AgentState → Option String
  composerChain : Except String String
  arxivHttp : Except String String
  tavilyHttp : Except String (ℕ × List TavilyExample)
  tavilyApiKey : Option String

/-- One superstep of the compiled graph: run the current node's state
update through the `operator.add` reducer, then follow its (conditional)
edge. -/
def step (o : Oracles) : Node × AgentState → Node × AgentState
  | (.agent, st) =>
    let st := applyUpdate st (call_model o.llm st)
    (agentEdgeTarget (tool_call_or_helpful st), st)
  | (.arxiv_tools, st) =>
    let st := applyUpdate st (arxivToolNode o.arxivHttp st)
    (.extract_arxiv, st)
  | (.tavily_tools, st) =>
    let st := applyUpdate st (tavilyToolNode o.tavilyApiKey o.tavilyHttp st)
    (.extract_tavily, st)
  | (.extract_arxiv, st) =>
    let st := applyUpdate st (extract_arxiv_results st)
    (.agent, st)
  | (.extract_tavily, st) =>
    let st := applyUpdate st (extract_tavily_results st)
    (.agent, st)
  | (.action, st) => (actionEdgeTarget (route_action st), st)
  | (.should_continue_gate, st) => (gateEdgeTarget (should_continue (o.evaluator st) st), st)
  | (.compose, st) =>
    let st := applyUpdate st (compose_response o.composerChain st)
    (.should_continue_gate, st)
  | (.terminal, st) => (.terminal, st)

/-- Drive the graph until `END` within `fuel` supersteps (`none` models
hitting LangGraph's recursion limit). -/
def runGraph (o : Oracles) : ℕ → Node × AgentState → Option AgentState
  | 0, _ => none
  | fuel + 1, (n, st) =>
    if n = .terminal then some st else runGraph o fuel (step o (n, st))

/-- The `initial_state` dict of `generate_response`. -/
def initialState (complaint : String) (start_time : ℚ) : AgentState :=
  { messages := []
    complaint := complaint
    insights := {}
    examples := {}
    response := ""
    citations := []
    latency_ms := 0
    start_time := start_time
    iteration_count := 0
    decision := "start"
    arxiv_complete := false
    tavily_complete := false
    helpfulness_score := mkRat 0 1 }

/-- Python `int(...)` on a rational: truncation toward zero (the
numerator and denominator of a `ℚ` are already in lowest terms with a
positive denominator). -/
def pyInt (q : ℚ) : ℤ := Int.tdiv q.num q.den

/-- The dict `generate_response` returns. -/
structure GenerateResult where
  reply : String
  citations : List String
  latency_ms : ℤ
  iterations : ℕ
  helpfulness_score : ℚ
  research_quality : String
  message_count : ℕ
deriving DecidableEq

/-- `ReplySightAgent.generate_response`: seed the initial state, run the
compiled graph, then extract the composed response (falling back to the
content of the last plain `AIMessage`) and the truncated wall-clock
latency `int((end_time - start_time) * 1000)`. -/
def generate_response (o : Oracles) (fuel : ℕ) (complaint : String)
    (start_time end_time : ℚ) : Option GenerateResult :=
  (runGraph o fuel (.agent, initialState complaint start_time)).map (fun final_state =>
    let final_response := final_state.response
    let final_response :=
      if final_response = "" then
        match lastEvaluableAI final_state.messages with
        | some msg => msg.content
        | none => final_response
      else final_response
    { reply := final_response
      citations := final_state.citations
      latency_ms := pyInt ((end_time - start_time) * 1000)
      iterations := final_state.iteration_count
      helpfulness_score := final_state.helpfulness_score
      research_quality :=
        if final_state.arxiv_complete && final_state.tavily_complete then "comprehensive"
        else "partial"
      message_count := final_state.messages.length })

/-- A throwaway `GenerateResult` for `Option.getD`. -/
def emptyResult : GenerateResult :=
  { reply := "", citations := [], latency_ms := 0, iterations := 0
    helpfulness_score := mkRat 0 1, research_quality := "", message_count := 0 }

/-! ## Concrete collaborator behaviours used by witnesses and
counterexamples -/

/-- A decision model that immediately answers with an empty-content plain
`AIMessage` (no `tool_calls` attribute), with the evaluator scoring it
0.9: every external call succeeds. -/
def emptyReplyOracles : Oracles :=
  { llm := fun _ => .ai "" none
    evaluator := fun _ => some "0.9"
    composerChain := .ok "unused"
    arxivHttp := .ok "<feed><entry>x</entry></feed>"
    tavilyHttp := .ok (200, [])
    tavilyApiKey := some "key" }

/-- A decision model that requests arXiv research, then Tavily research,
then stops calling tools. -/
def researchThenStopLLM (msgs : List Msg) : Msg :=
  if msgs.any (Msg.isToolNamed "tavily_examples") then .ai "" none
  else if msgs.any (Msg.isToolNamed "arxiv_insights") then
    .ai "" (some [{ name := "tavily_examples", query := "q2" }])
  else .ai "" (some [{ name := "arxiv_insights", query := "q1" }])

/-- Every external collaborator fails: the arXiv HTTP call raises, the
Tavily credential is missing, the evaluator invocation raises and the
composer chain invocation raises. -/
def allFailingOracles : Oracles :=
  { llm := researchThenStopLLM
    evaluator := fun _ => none
    composerChain := .error "OpenAI invocation failed"
    arxivHttp := .error "network unreachable"
    tavilyHttp := .error "network unreachable"
    tavilyApiKey := none }

/-! ## Helper lemmas -/

lemma clamp01_nonneg (q : ℚ) : mkRat 0 1 ≤ clamp01 q :=
  le_min (le_max_right q (mkRat 0 1)) (by decide)

lemma clamp01_le_one (q : ℚ) : clamp01 q ≤ mkRat 1 1 :=
  min_le_right _ _

lemma pyInt_nonneg {q : ℚ} (h : 0 ≤ q) : 0 ≤ pyInt q := by
  obtain ⟨m, hm⟩ := Int.eq_ofNat_of_zero_le (Rat.num_nonneg.mpr h)
  unfold pyInt
  rw [hm]
  exact Int.ofNat_nonneg (m / q.den)

/-- `route_action`'s condition, restated over propositions. -/
lemma route_action_eq (st : AgentState) :
    route_action st =
      (if (st.arxiv_complete = true ∧ st.tavily_complete = true) ∨ 4 ≤ st.iteration_count
        then ActionRoute.composeRoute else ActionRoute.agentRoute) := by
  unfold route_action
  by_cases h1 : st.arxiv_complete <;> by_cases h2 : st.tavily_complete <;>
    by_cases h3 : 4 ≤ st.iteration_count <;> simp [h1, h2, h3]

lemma academicCitations_length_le (ins : ResearchDict) :
    (academicCitations ins).length ≤ 2 := by
  unfold academicCitations
  cases ins.papers with
  | none => simp
  | some ps =>
    by_cases hps : ps.isEmpty <;> simp [hps, List.length_take]

lemma exampleUrls_length_le (exs : ResearchDict) :
    (exampleUrls exs).length ≤ 2 := by
  unfold exampleUrls
  cases exs.examples with
  | none => simp
  | some es =>
    by_cases hes : es.isEmpty <;> simp [hes, List.length_take]

/-! ## Claim theorems -/

/-- C2.  `ROUTE_ACTION` routes to COMPOSE exactly when both research
flags are set or `iteration_count ≥ 4`; otherwise it routes to the
quality gate (`should_continue`); in particular composition is forced
when both flags are false and the iteration count reaches 4. -/
theorem route_action_composes_iff (st : AgentState) :
    (route_action st = ActionRoute.composeRoute ↔
      (st.arxiv_complete = true ∧ st.tavily_complete = true) ∨ 4 ≤ st.iteration_count) ∧
    (route_action st ≠ ActionRoute.composeRoute →
      route_action st = ActionRoute.agentRoute ∧
      actionEdgeTarget (route_action st) = Node.should_continue_gate) ∧
    (st.arxiv_complete = false → st.tavily_complete = false → st.iteration_count = 4 →
      route_action st = ActionRoute.composeRoute) := by
  rw [route_action_eq]
  by_cases h : (st.arxiv_complete = true ∧ st.tavily_complete = true) ∨ 4 ≤ st.iteration_count
  · rw [if_pos h]
    refine ⟨by simp [h], by simp, ?_⟩
    intro _ _ _
    rfl
  · rw [if_neg h]
    refine ⟨by simp [h], fun _ => ⟨rfl, rfl⟩, ?_⟩
    intro h1 h2 h4
    exact absurd (Or.inr (le_of_eq h4.symm)) h

/-- C3.  At the quality gate, a history of more than 10 entries forces
`end` unconditionally, before the evaluator is invoked and whatever the
evaluator would answer; at 10 or fewer entries the gate never answers
`end` without invoking the evaluator and obtaining a score of at least
0.7 — so the length-based forced end fires exactly when the history is
strictly longer than 10. -/
theorem quality_gate_forces_end_past_ten (evalo : Option String) (st : AgentState) :
    (10 < st.messages.length →
      should_continue evalo st = ContinueDecision.endRun ∧ gateInvokesEvaluator st = false) ∧
    (st.messages.length ≤ 10 → should_continue evalo st = ContinueDecision.endRun →
      gateInvokesEvaluator st = true ∧ mkRat 7 10 ≤ check_helpfulness evalo st) := by
  constructor
  · intro h
    constructor
    · unfold should_continue
      rw [if_pos h]
    · unfold gateInvokesEvaluator
      rw [if_pos h]
  · intro hle hend
    unfold should_continue at hend
    rw [if_neg (by omega)] at hend
    cases hfind : lastEvaluableAI st.messages with
    | none =>
      rw [hfind] at hend
      exact absurd hend (by simp)
    | some m =>
      rw [hfind] at hend
      by_cases hsc : check_helpfulness evalo st ≥ mkRat 7 10
      · refine ⟨?_, hsc⟩
        unfold gateInvokesEvaluator
        rw [if_neg (by omega), hfind]
        rfl
      · rw [if_neg hsc] at hend
        exact absurd hend (by simp)

/-- C4.  At the quality gate with at most 10 history entries: with no
evaluable assistant message the gate answers `continue` without invoking
the evaluator and without fabricating a score (the score function stays
at its 0.0 default); with an evaluable message the evaluator is invoked
and the gate answers `end` exactly when the returned score is ≥ 0.7 —
the research flags play no part (the state is arbitrary). -/
theorem quality_gate_evaluation_spec (evalo : Option String) (st : AgentState) :
    (st.messages.length ≤ 10 → lastEvaluableAI st.messages = none →
      should_continue evalo st = ContinueDecision.continueRun ∧
      gateInvokesEvaluator st = false ∧
      check_helpfulness evalo st = mkRat 0 1) ∧
    (st.messages.length ≤ 10 → (lastEvaluableAI st.messages).isSome = true →
      gateInvokesEvaluator st = true ∧
      (should_continue evalo st = ContinueDecision.endRun ↔
        mkRat 7 10 ≤ check_helpfulness evalo st)) := by
  constructor
  · intro hle hnone
    refine ⟨?_, ?_, ?_⟩
    · unfold should_continue
      rw [if_neg (by omega), hnone]
    · unfold gateInvokesEvaluator
      rw [if_neg (by omega), hnone]
      rfl
    · unfold check_helpfulness
      rw [hnone]
  · intro hle hsome
    cases hfind : lastEvaluableAI st.messages with
    | none =>
      rw [hfind] at hsome
      simp at hsome
    | some m =>
      refine ⟨?_, ?_⟩
      · unfold gateInvokesEvaluator
        rw [if_neg (by omega), hfind]
        rfl
      · unfold should_continue
        rw [if_neg (by omega), hfind]
        by_cases hsc : check_helpfulness evalo st ≥ mkRat 7 10
        · rw [if_pos hsc]
          simp [hsc]
        · rw [if_neg hsc]
          simp [hsc]

/-- C5.  Any result of `check_helpfulness` lies in [0.0, 1.0]; when the
evaluator model is invoked, an invocation failure or an output with no
parseable number yields exactly 0.5, and an output whose first decimal
number parses yields that number clamped to [0.0, 1.0]. -/
theorem check_helpfulness_clamped_and_defaults (evalo : Option String) (st : AgentState) :
    (mkRat 0 1 ≤ check_helpfulness evalo st ∧ check_helpfulness evalo st ≤ mkRat 1 1) ∧
    (evaluatorModelInvoked st = true →
      (evalo = none → check_helpfulness evalo st = mkRat 1 2) ∧
      (∀ s, evalo = some s →
        (scanNumber (pyStrip s.toList) = none → check_helpfulness evalo st = mkRat 1 2) ∧
        (∀ ip fp, scanNumber (pyStrip s.toList) = some (ip, fp) →
          check_helpfulness evalo st = clamp01 (decVal ip fp)))) := by
  constructor
  · cases hfind : lastEvaluableAI st.messages with
    | none =>
      have h0 : check_helpfulness evalo st = mkRat 0 1 := by
        unfold check_helpfulness
        rw [hfind]
      rw [h0]
      exact ⟨by decide, by decide⟩
    | some m =>
      cases evalo with
      | none =>
        have h0 : check_helpfulness none st = mkRat 1 2 := by
          unfold check_helpfulness
          rw [hfind]
        rw [h0]
        exact ⟨by decide, by decide⟩
      | some s =>
        cases hscan : scanNumber (pyStrip s.toList) with
        | none =>
          have h0 : check_helpfulness (some s) st = mkRat 1 2 := by
            unfold check_helpfulness
            rw [hfind]
            simp only [hscan]
          rw [h0]
          exact ⟨by decide, by decide⟩
        | some pr =>
          obtain ⟨ip, fp⟩ := pr
          have h0 : check_helpfulness (some s) st = clamp01 (decVal ip fp) := by
            unfold check_helpfulness
            rw [hfind]
            simp only [hscan]
          rw [h0]
          exact ⟨clamp01_nonneg _, clamp01_le_one _⟩
  · intro hinv
    unfold evaluatorModelInvoked at hinv
    cases hfind : lastEvaluableAI st.messages with
    | none =>
      rw [hfind] at hinv
      simp at hinv
    | some m =>
      refine ⟨?_, ?_⟩
      · intro he
        subst he
        unfold check_helpfulness
        rw [hfind]
      · intro s he
        subst he
        refine ⟨?_, ?_⟩
        · intro hscan
          unfold check_helpfulness
          rw [hfind]
          simp only [hscan]
        · intro ip fp hscan
          unfold check_helpfulness
          rw [hfind]
          simp only [hscan]

/-- C10 (implicit).  When no evaluable assistant message exists,
`check_helpfulness` returns exactly 0.0 without invoking the evaluator
model: the absent-candidate result is distinguishable from the 0.5
failure default and never meets the 0.7 stop threshold. -/
theorem check_helpfulness_absent_candidate (evalo : Option String) (st : AgentState)
    (h : lastEvaluableAI st.messages = none) :
    check_helpfulness evalo st = mkRat 0 1 ∧
    evaluatorModelInvoked st = false ∧
    ¬ check_helpfulness evalo st = mkRat 1 2 ∧
    ¬ mkRat 7 10 ≤ check_helpfulness evalo st := by
  have h0 : check_helpfulness evalo st = mkRat 0 1 := by
    unfold check_helpfulness
    rw [h]
  refine ⟨h0, ?_, ?_, ?_⟩
  · unfold evaluatorModelInvoked
    rw [h]
    rfl
  · rw [h0]
    decide
  · rw [h0]
    decide

/-- A state whose conversation holds only a system message and a
tool-calling assistant turn: nothing is evaluable. -/
def noCandidateState : AgentState :=
  { initialState "Broken earbud" (mkRat 0 1) with
    messages := [Msg.system "seed",
      Msg.ai "calling tools" (some [{ name := "arxiv_insights", query := "q" }])] }

/-- Witness for C10 at a concrete state. -/
theorem check_helpfulness_absent_candidate_witness :
    check_helpfulness (some "0.9") noCandidateState = mkRat 0 1 ∧
    evaluatorModelInvoked noCandidateState = false ∧
    ¬ check_helpfulness (some "0.9") noCandidateState = mkRat 1 2 ∧
    ¬ mkRat 7 10 ≤ check_helpfulness (some "0.9") noCandidateState :=
  check_helpfulness_absent_candidate (some "0.9") noCandidateState (by decide)

/-- C6.  When the composer's language-model invocation raises, the
failure is not propagated: the result is the fixed, non-empty,
deterministic apology-and-remedy template with an empty citation list
(and the `fallback` sentiment marker), for every complaint and every
accumulated research state. -/
theorem composer_fallback_on_invocation_failure (e complaint : String)
    (ins exs : ResearchDict) :
    composerRun (.error e) complaint ins exs =
      { response := fallbackResponse, citations := []
        sentiment := "fallback", error := some e } ∧
    ¬ fallbackResponse = "" :=
  ⟨rfl, by decide⟩

/-- A research dict holding the same paper twice, as two successful
arXiv merges can produce. -/
def duplicateInsights : ResearchDict :=
  { papers := some [referencePaper, referencePaper] }

/-- C7 counterexample.  A successful composition over an insights dict
holding two papers with the same citation yields a citation list with a
duplicate entry: the composer drops empty entries but does not
deduplicate. -/
theorem composer_citations_duplicate_cex :
    (composerRun (.ok "Thanks for reaching out") "c" duplicateInsights {}).citations =
      ["Smith, J. et al. (2023). arXiv:2023.12345",
        "Smith, J. et al. (2023). arXiv:2023.12345"] ∧
    ¬ (composerRun (.ok "Thanks for reaching out") "c" duplicateInsights {}).citations.Nodup :=
  ⟨by decide, by decide⟩

/-- C7 (amended).  A successful composition's citation list is the
(empty-entry-filtered) concatenation of at most two identifiers from the
academic-insight source and at most two from the best-practice source,
and contains no empty entry; duplicates are not removed. -/
theorem composer_citations_bounded (llmOut complaint : String)
    (ins exs : ResearchDict) :
    (composerRun (.ok llmOut) complaint ins exs).citations =
      (academicCitations ins).filter (fun c => ¬ c = "") ++
        (exampleUrls exs).filter (fun c => ¬ c = "") ∧
    ((academicCitations ins).filter (fun c => ¬ c = "")).length ≤ 2 ∧
    ((exampleUrls exs).filter (fun c => ¬ c = "")).length ≤ 2 ∧
    ¬ "" ∈ (composerRun (.ok llmOut) complaint ins exs).citations := by
  have hcit : (composerRun (.ok llmOut) complaint ins exs).citations =
      (academicCitations ins).filter (fun c => ¬ c = "") ++
        (exampleUrls exs).filter (fun c => ¬ c = "") := by
    unfold composerRun
    simp [List.filter_append]
  refine ⟨hcit, ?_, ?_, ?_⟩
  · exact le_trans (List.length_filter_le _ _) (academicCitations_length_le ins)
  · exact le_trans (List.length_filter_le _ _) (exampleUrls_length_le exs)
  · rw [hcit]
    intro hmem
    rcases List.mem_append.mp hmem with hin | hin <;>
      simpa using List.of_mem_filter hin

/-- C8 counterexample.  An exception raised by the HTTP layer (a network
failure) propagates uncaught out of both adapters' `_arun`: the invoke
does not return an error-marked result in that case. -/
theorem adapters_network_fault_propagates_cex :
    tavilyARun (some "tvly-key") (.error "network unreachable") "refund policy" =
      .error "network unreachable" ∧
    arxivARun (.error "connection reset") "service recovery" =
      .error "connection reset" :=
  ⟨rfl, rfl⟩

/-- C8 (amended).  The Tavily adapter returns an explicit error-marked
result with an empty payload — it does not crash — when the credential
is missing/empty or when the upstream answers a non-200 status; a 200
status yields the payload result; but an HTTP-layer exception propagates
out of both adapters. -/
theorem adapters_error_results (q : String) :
    (∀ k http, pyFalsyKey k = true → tavilyARun k http q =
      .ok { error := some "Tavily API key not configured"
            examples := none, query := none, source := none }) ∧
    (∀ k status results, pyFalsyKey k = false → ¬ status = 200 →
      tavilyARun k (.ok (status, results)) q =
        .ok { error := some ("Tavily API error: " ++ toString status)
              examples := none, query := none, source := none }) ∧
    (∀ k results, pyFalsyKey k = false →
      tavilyARun k (.ok (200, results)) q =
        .ok { error := none, examples := some results
              query := some q, source := some "Tavily" }) ∧
    (∀ k e, pyFalsyKey k = false → tavilyARun k (.error e) q = .error e) ∧
    (∀ e, arxivARun (.error e) q = .error e) := by
  refine ⟨?_, ?_, ?_, ?_, ?_⟩
  · intro k http hk
    unfold tavilyARun
    rw [if_pos hk]
  · intro k status results hk hs
    unfold tavilyARun
    rw [if_neg (by simp [hk])]
    simp [hs]
  · intro k results hk
    unfold tavilyARun
    rw [if_neg (by simp [hk])]
    rfl
  · intro k e hk
    unfold tavilyARun
    rw [if_neg (by simp [hk])]
  · intro e
    rfl

/-- C9.  Every superstep of the graph only appends to the `messages`
channel (`operator.add` reducer): the previous history is an unchanged
initial segment of the new one, so its length never decreases, no entry
is removed or replaced, and insertion order is preserved. -/
theorem step_appends_messages (o : Oracles) (n : Node) (st : AgentState) :
    (∃ tail, (step o (n, st)).2.messages = st.messages ++ tail) ∧
    st.messages.length ≤ (step o (n, st)).2.messages.length := by
  have h : ∃ tail, (step o (n, st)).2.messages = st.messages ++ tail := by
    cases n with
    | agent => exact ⟨(call_model o.llm st).messages, rfl⟩
    | arxiv_tools => exact ⟨(arxivToolNode o.arxivHttp st).messages, rfl⟩
    | tavily_tools => exact ⟨(tavilyToolNode o.tavilyApiKey o.tavilyHttp st).messages, rfl⟩
    | extract_arxiv => exact ⟨(extract_arxiv_results st).messages, rfl⟩
    | extract_tavily => exact ⟨(extract_tavily_results st).messages, rfl⟩
    | action => exact ⟨[], (List.append_nil _).symm⟩
    | should_continue_gate => exact ⟨[], (List.append_nil _).symm⟩
    | compose => exact ⟨(compose_response o.composerChain st).messages, rfl⟩
    | terminal => exact ⟨[], (List.append_nil _).symm⟩
  obtain ⟨t, ht⟩ := h
  refine ⟨⟨t, ht⟩, ?_⟩
  rw [ht]
  simp

/-- C1 counterexample.  A run over a non-empty complaint that completes
(the decision model answers with an empty-content plain message and the
evaluator scores it 0.9) returns an *empty* `reply`: `generate_response`
does not guarantee a non-empty reply. -/
theorem generate_response_empty_reply_cex :
    ¬ "Broken earbud" = "" ∧
    (generate_response emptyReplyOracles 25 "Broken earbud" (mkRat 0 1) (mkRat 1 1)).map
      (fun r => r.reply) = some "" :=
  ⟨by decide, by decide⟩

/-- C1 (amended).  Whenever `generate_response` completes (within the
step budget), its `latency_ms` is a non-negative integer provided the
wall clock did not run backwards; evaluation and composition failures
and adapter error results are absorbed along the way (the step function
is total — see `allFailingOracles` for a completing run in which every
external collaborator fails), but the reply may be the empty string. -/
theorem generate_response_latency_nonneg (o : Oracles) (fuel : ℕ) (complaint : String)
    (s e : ℚ) (hse : s ≤ e)
    (hsome : (generate_response o fuel complaint s e).isSome = true) :
    0 ≤ ((generate_response o fuel complaint s e).getD emptyResult).latency_ms := by
  unfold generate_response at hsome ⊢
  cases hrun : runGraph o fuel (Node.agent, initialState complaint s) with
  | none =>
    rw [hrun] at hsome
    simp at hsome
  | some fs =>
    simp only [hrun, Option.map_some', Option.getD_some]
    show 0 ≤ pyInt ((e - s) * 1000)
    exact pyInt_nonneg (mul_nonneg (sub_nonneg.mpr hse) (by norm_num))

/-- Witness for C1 (amended): a concrete completing run in which the
arXiv HTTP call raises, the Tavily credential is missing, the evaluator
raises and the composer chain raises; it completes with non-negative
latency and the composer's fallback template as the reply. -/
theorem generate_response_latency_nonneg_witness :
    0 ≤ ((generate_response allFailingOracles 25 "The right earbud stopped charging"
        (mkRat 0 1) (mkRat 1 1)).getD emptyResult).latency_ms ∧
    (generate_response allFailingOracles 25 "The right earbud stopped charging"
        (mkRat 0 1) (mkRat 1 1)).map (fun r => r.reply) = some fallbackResponse :=
  ⟨generate_response_latency_nonneg allFailingOracles 25 "The right earbud stopped charging"
      (mkRat 0 1) (mkRat 1 1) (by decide) (by decide),
    by decide⟩

end ReplySight

